import Mathlib

/-!
Verification of the Nuxt server render middleware
(`packages/server/src/middleware/nuxt.js`).

The middleware wraps a render call and finalizes the HTTP response:
it adjusts the status code on render errors, attaches `ETag`,
`Link` (HTTP/2 push) and Content-Security-Policy headers, writes the
HTML body, and dispatches hooks.  We embed it as a pure function from an
environment (render result, request context flags, options, and the
external `etag`/`fresh` libraries abstracted as functions) to a trace of
its observable effects: response state, hooks dispatched, return value,
and whether `next` was called.

JavaScript features are modelled explicitly:
* a JS `Set` is an insertion-ordered duplicate-free list (`setAdd`);
* a JS plain object is an insertion-ordered association list; object
  spread `{...o, k: v}` updates the value in place when the key exists
  and appends otherwise (`objSet`);
* `x || 500` treats both `undefined` and `0` as falsy (`jsOr500`);
* the mutation of `cspScriptSrcHashSet` inside `transformPolicyObject`
  (the code aliases and `.add`s to the set from the render result) is
  modelled by returning the updated set alongside each result.
-/

set_option autoImplicit false

namespace NuxtMw

/-- One preloadable build asset, as produced by `getPreloadFiles()`. -/
structure PreloadFile where
  file : String
  asType : String
  fileWithoutQuery : String
  modern : Bool
  deriving DecidableEq, Repr

/-- A JS error object carrying an optional `statusCode` field.
`none` models an absent field; `some 0` is a present but falsy value. -/
structure ErrObj where
  statusCode : Option Nat
  deriving DecidableEq, Repr

/-- The render result destructured by the middleware.  `getPreloadFiles`
is a thunk in the source; we record the list it produces. -/
structure RenderResult where
  html : String
  cspScriptSrcHashSet : List String
  error : Option ErrObj
  redirected : Bool
  preloadFiles : List PreloadFile
  deriving DecidableEq, Repr

/-- `options.render.csp` when it is configured (truthy).
`allowedSources` is `some` exactly when `Array.isArray(allowedSources)`;
`policies` is `some` exactly when it is a plain non-null non-array object,
modelled as an insertion-ordered association list. -/
structure CspOptions where
  reportOnly : Bool
  allowedSources : Option (List String)
  policies : Option (List (String × List String))

/-- Everything the middleware reads: the renderer's outcome (`none`
models `renderRoute` throwing), the request context, the options, and
the external `etag`/`fresh` libraries as abstract functions.
`fresh` is `fresh(req.headers, { etag })` curried at the fixed request. -/
structure Env where
  renderResult : Option RenderResult
  ctxRedirected : Bool
  ctxNuxtError : Option ErrObj
  etagEnabled : Bool
  http2Push : Bool
  shouldPush : Option (String → String → Bool)
  pushAssets : Option (String → List PreloadFile → List String)
  csp : Option CspOptions
  isDev : Bool
  crossorigin : Option String
  publicPath : String
  generateETag : String → String
  fresh : String → Bool

/-- What the middleware returns to its caller. -/
inductive RetVal where
  /-- `return html` -/
  | str : String → RetVal
  /-- `return` / falling off the end -/
  | undef : RetVal
  /-- `return err` from the catch block -/
  | errVal : RetVal
  deriving DecidableEq, Repr

/-- Observable response state: status code, headers in the order first
set, the payloads passed to `res.end` (`""` for `res.end()`), and
whether the response was ended. -/
structure Response where
  statusCode : Nat
  headers : List (String × String)
  bodyWrites : List String
  ended : Bool
  deriving DecidableEq, Repr

/-- The full observable trace of one middleware invocation. -/
structure MwOutcome where
  res : Response
  hooks : List String
  returned : RetVal
  nextCalled : Bool
  deriving DecidableEq, Repr

/-- JS `Set.prototype.add`: append unless already present. -/
def setAdd (s : List String) (x : String) : List String :=
  if x ∈ s then s else s ++ [x]

/-- Association-list read, `o[k]` on a JS object. -/
def objGet : List (String × List String) → String → Option (List String)
  | [], _ => none
  | (a, b) :: t, k => if a = k then some b else objGet t k

/-- `{...o, k: v}`: replace the value in place when `k` is a key of `o`
(JS objects keep the first insertion position), else append. -/
def objSet : List (String × List String) → String → List String → List (String × List String)
  | [], k, v => [(k, v)]
  | (a, b) :: t, k, v => if a = k then (k, v) :: t else (a, b) :: objSet t k v

/-- `res.setHeader` on the header association list (Node replaces the
value of an already-set header, keeping its position). -/
def hdrSet : List (String × String) → String → String → List (String × String)
  | [], k, v => [(k, v)]
  | (a, b) :: t, k, v => if a = k then (k, v) :: t else (a, b) :: hdrSet t k v

/-- Read a response header that was set, if any. -/
def headerLookup : List (String × String) → String → Option String
  | [], _ => none
  | (a, b) :: t, k => if a = k then some b else headerLookup t k

/-- `res.setHeader(k, v)`. -/
def setHeader (r : Response) (k v : String) : Response :=
  { r with headers := hdrSet r.headers k v }

/-- `context.nuxt.error.statusCode || 500`: absent and `0` are falsy. -/
def jsOr500 : Option Nat → Nat
  | none => 500
  | some 0 => 500
  | some n => n

/-- `transformPolicyObject(policies, cspScriptSrcHashSet)`.  The source
aliases the set (`hashAndPolicySet = cspScriptSrcHashSet`) and mutates
it with `.add`; we return the transformed policy object together with
the mutated set.  `'self'` is always added, then — when the user defined
a `script-src` array — each of its entries in order. -/
def transformPolicyObject (policies : List (String × List String))
    (cspScriptSrcHashSet : List String) :
    List (String × List String) × List String :=
  let userHasDefinedScriptSrc := (objGet policies "script-src").isSome
  let hashAndPolicySet := setAdd cspScriptSrcHashSet "'self'"
  let hashAndPolicySet :=
    if userHasDefinedScriptSrc then
      ((objGet policies "script-src").getD []).foldl setAdd hashAndPolicySet
    else hashAndPolicySet
  (objSet policies "script-src" hashAndPolicySet, hashAndPolicySet)

/-- `getCspString({ cspScriptSrcHashSet, allowedSources, policies, isDev })`.
Returns the header string together with the (possibly mutated) hash set. -/
def getCspString (cspScriptSrcHashSet : List String)
    (allowedSources : Option (List String))
    (policies : Option (List (String × List String))) (isDev : Bool) :
    String × List String :=
  let joinedHashSet := String.intercalate " " cspScriptSrcHashSet
  let baseCspStr := "script-src 'self'" ++ (if isDev then " 'unsafe-eval'" else "")
      ++ " " ++ joinedHashSet
  match allowedSources with
  | some srcs => (baseCspStr ++ " " ++ String.intercalate " " srcs, cspScriptSrcHashSet)
  | none =>
    match policies with
    | some ps =>
      let tp := transformPolicyObject ps cspScriptSrcHashSet
      (String.intercalate "; "
        (tp.1.map (fun kv => kv.1 ++ " " ++ String.intercalate " " kv.2)), tp.2)
    | none => (baseCspStr, cspScriptSrcHashSet)

/-- One `Link` header entry:
`` `<${publicPath}${file}>; rel=${ref};${cors} as=${asType}` ``. -/
def pushLink (publicPath : String) (crossorigin : Option String)
    (pf : PreloadFile) : String :=
  let cors := match crossorigin with
    | some c => if c = "" then "" else " crossorigin=" ++ c ++ ";"
    | none => ""
  let ref := if pf.modern then "modulepreload" else "preload"
  "<" ++ publicPath ++ pf.file ++ ">; rel=" ++ ref ++ ";" ++ cors ++ " as=" ++ pf.asType

/-- `defaultPushAssets(preloadFiles, shouldPush, publicPath, options)`:
skip an entry when `shouldPush` is unset and `asType` is neither
`script` nor `style`, or when a supplied `shouldPush` rejects the
`(fileWithoutQuery, asType)` pair; otherwise emit its link. -/
def defaultPushAssets (preloadFiles : List PreloadFile)
    (shouldPush : Option (String → String → Bool))
    (publicPath : String) (crossorigin : Option String) : List String :=
  preloadFiles.filterMap fun pf =>
    if shouldPush.isNone && pf.asType != "script" && pf.asType != "style" then
      none
    else if (match shouldPush with
             | some f => !f pf.fileWithoutQuery pf.asType
             | none => false) then
      none
    else
      some (pushLink publicPath crossorigin pf)

/-- Initial response state: `res.statusCode = 200`, nothing set. -/
def initRes : Response :=
  { statusCode := 200, headers := [], bodyWrites := [], ended := false }

/-- The catch block: when `context.redirected` is truthy, log and return
the error as a value; otherwise `next(err)`. -/
def catchOutcome (env : Env) (hooks : List String) (r : Response) : MwOutcome :=
  if env.ctxRedirected then
    { res := r, hooks := hooks, returned := RetVal.errVal, nextCalled := false }
  else
    { res := r, hooks := hooks, returned := RetVal.undef, nextCalled := true }

/-- The tail of the success path, from the ETag block to the final
`res.end(html)`: `r0` is the response state after the status-code
adjustment. -/
def finish (env : Env) (result : RenderResult) (r0 : Response) : MwOutcome :=
  let hasError := result.error.isSome
  if !hasError && env.etagEnabled && env.fresh (env.generateETag result.html) then
    { res := { r0 with statusCode := 304, bodyWrites := r0.bodyWrites ++ [""], ended := true },
      hooks := ["render:route", "render:routeDone"],
      returned := RetVal.undef, nextCalled := false }
  else
    let r1 := if !hasError && env.etagEnabled then
        setHeader r0 "ETag" (env.generateETag result.html)
      else r0
    let r2 :=
      if !hasError && env.http2Push then
        let links := match env.pushAssets with
          | some f => f env.publicPath result.preloadFiles
          | none => defaultPushAssets result.preloadFiles env.shouldPush
              env.publicPath env.crossorigin
        if links.length > 0 then setHeader r1 "Link" (String.intercalate ", " links)
        else r1
      else r1
    let r3 := match env.csp with
      | some c =>
        setHeader r2
          (if c.reportOnly then "Content-Security-Policy-Report-Only"
           else "Content-Security-Policy")
          (getCspString result.cspScriptSrcHashSet c.allowedSources c.policies env.isDev).1
      | none => r2
    let r4 := setHeader r3 "Content-Type" "text/html; charset=utf-8"
    let r5 := setHeader r4 "Accept-Ranges" "none"
    let r6 := setHeader r5 "Content-Length" (toString result.html.utf8ByteSize)
    { res := { r6 with bodyWrites := r6.bodyWrites ++ [result.html], ended := true },
      hooks := ["render:route", "render:routeDone"],
      returned := RetVal.str result.html, nextCalled := false }

/-- `nuxtMiddleware(req, res, next)`.  `env.renderResult = none` models
`renderRoute` throwing; when `result.error` is present but
`context.nuxt.error` is absent, reading `.statusCode` throws a
`TypeError`, landing in the same catch block with the `render:route`
hook already dispatched. -/
def nuxtMiddleware (env : Env) : MwOutcome :=
  match env.renderResult with
  | none => catchOutcome env [] initRes
  | some result =>
    if result.redirected then
      { res := initRes, hooks := ["render:route", "render:routeDone"],
        returned := RetVal.str result.html, nextCalled := false }
    else
      match result.error with
      | some _ =>
        match env.ctxNuxtError with
        | none => catchOutcome env ["render:route"] initRes
        | some ce => finish env result { initRes with statusCode := jsOr500 ce.statusCode }
      | none => finish env result initRes

/-! Concrete render results and environments used by the witness and
counterexample theorems below. -/

/-- An error render result (`result.error` present, not redirected). -/
def resC1 : RenderResult :=
  { html := "<h1>error</h1>", cspScriptSrcHashSet := [],
    error := some ⟨some 404⟩, redirected := false, preloadFiles := [] }

/-- Error render with csp configured: exhibits the CSP header being set
on the error path. -/
def envC1 : Env :=
  { renderResult := some resC1, ctxRedirected := false,
    ctxNuxtError := some ⟨some 404⟩, etagEnabled := true, http2Push := true,
    shouldPush := none, pushAssets := none,
    csp := some { reportOnly := false, allowedSources := none, policies := none },
    isDev := false, crossorigin := none, publicPath := "/_nuxt/",
    generateETag := fun _ => "W/abc", fresh := fun _ => false }

/-- Error result whose own `statusCode` (404) differs from the context
error's `statusCode` (403). -/
def resC2x : RenderResult :=
  { html := "e", cspScriptSrcHashSet := [], error := some ⟨some 404⟩,
    redirected := false, preloadFiles := [] }

def envC2x : Env :=
  { renderResult := some resC2x, ctxRedirected := false,
    ctxNuxtError := some ⟨some 403⟩, etagEnabled := false, http2Push := false,
    shouldPush := none, pushAssets := none, csp := none, isDev := false,
    crossorigin := none, publicPath := "", generateETag := fun _ => "",
    fresh := fun _ => false }

/-- Error result agreeing with the context error (statusCode 503). -/
def resC2w : RenderResult :=
  { html := "e", cspScriptSrcHashSet := [], error := some ⟨some 503⟩,
    redirected := false, preloadFiles := [] }

def envC2w : Env :=
  { renderResult := some resC2w, ctxRedirected := false,
    ctxNuxtError := some ⟨some 503⟩, etagEnabled := false, http2Push := false,
    shouldPush := none, pushAssets := none, csp := none, isDev := false,
    crossorigin := none, publicPath := "", generateETag := fun _ => "",
    fresh := fun _ => false }

/-- A successful render whose ETag is fresh for the request. -/
def resC4 : RenderResult :=
  { html := "<p>hi</p>", cspScriptSrcHashSet := [], error := none,
    redirected := false,
    preloadFiles := [⟨"app.js", "script", "app.js", false⟩] }

def envC4 : Env :=
  { renderResult := some resC4, ctxRedirected := false, ctxNuxtError := none,
    etagEnabled := true, http2Push := true, shouldPush := none,
    pushAssets := none,
    csp := some { reportOnly := false, allowedSources := none, policies := none },
    isDev := false, crossorigin := none, publicPath := "/_nuxt/",
    generateETag := fun _ => "W/abc", fresh := fun _ => true }

/-- A redirected render result (with an error object present, to show
the status-code adjustment is skipped too). -/
def resC5 : RenderResult :=
  { html := "", cspScriptSrcHashSet := [], error := some ⟨some 410⟩,
    redirected := true, preloadFiles := [] }

def envC5 : Env :=
  { renderResult := some resC5, ctxRedirected := true,
    ctxNuxtError := some ⟨some 410⟩, etagEnabled := true, http2Push := true,
    shouldPush := none, pushAssets := none,
    csp := some { reportOnly := false, allowedSources := none, policies := none },
    isDev := false, crossorigin := none, publicPath := "/_nuxt/",
    generateETag := fun _ => "W/abc", fresh := fun _ => true }

/-- Preload list with one script (modern), one style and one font. -/
def resC7 : RenderResult :=
  { html := "<p>ok</p>", cspScriptSrcHashSet := [], error := none,
    redirected := false,
    preloadFiles :=
      [⟨"app.js", "script", "app.js", true⟩,
       ⟨"app.css", "style", "app.css", false⟩,
       ⟨"font.woff", "font", "font.woff", false⟩] }

def envC7 : Env :=
  { renderResult := some resC7, ctxRedirected := false, ctxNuxtError := none,
    etagEnabled := false, http2Push := true, shouldPush := none,
    pushAssets := none, csp := none, isDev := false,
    crossorigin := some "anonymous", publicPath := "/_nuxt/",
    generateETag := fun _ => "W/abc", fresh := fun _ => false }

/-- The renderer throws (`renderResult = none`), no redirect recorded. -/
def envC8 : Env :=
  { renderResult := none, ctxRedirected := false, ctxNuxtError := none,
    etagEnabled := false, http2Push := false, shouldPush := none,
    pushAssets := none, csp := none, isDev := false, crossorigin := none,
    publicPath := "", generateETag := fun _ => "", fresh := fun _ => false }

/-- A successful render hitting the fresh-ETag short-circuit. -/
def resC10 : RenderResult :=
  { html := "<p>x</p>", cspScriptSrcHashSet := [], error := none,
    redirected := false, preloadFiles := [] }

def envC10 : Env :=
  { renderResult := some resC10, ctxRedirected := false, ctxNuxtError := none,
    etagEnabled := true, http2Push := false, shouldPush := none,
    pushAssets := none, csp := none, isDev := false, crossorigin := none,
    publicPath := "", generateETag := fun _ => "W/x", fresh := fun _ => true }

/-- Policy object used by the C9 witness. -/
def ps9 : List (String × List String) :=
  [("default-src", ["'none'"]), ("script-src", ["https://x"])]

/-- Hash set used by the C9 witness. -/
def hs9 : List String := ["'sha256-abc'"]

/-! Helper lemmas about the embedding. -/

@[simp]
theorem setHeader_statusCode (r : Response) (k v : String) :
    (setHeader r k v).statusCode = r.statusCode := rfl

@[simp]
theorem setHeader_bodyWrites (r : Response) (k v : String) :
    (setHeader r k v).bodyWrites = r.bodyWrites := rfl

@[simp]
theorem setHeader_ended (r : Response) (k v : String) :
    (setHeader r k v).ended = r.ended := rfl

theorem catchOutcome_res (env : Env) (hk : List String) (r : Response) :
    (catchOutcome env hk r).res = r := by
  unfold catchOutcome; split <;> rfl

theorem catchOutcome_hooks (env : Env) (hk : List String) (r : Response) :
    (catchOutcome env hk r).hooks = hk := by
  unfold catchOutcome; split <;> rfl

theorem finish_hooks (env : Env) (result : RenderResult) (r0 : Response) :
    (finish env result r0).hooks = ["render:route", "render:routeDone"] := by
  unfold finish
  by_cases hc : (!result.error.isSome && env.etagEnabled
      && env.fresh (env.generateETag result.html)) = true
  · rw [if_pos hc]
  · rw [if_neg hc]

theorem finish_returned (env : Env) (result : RenderResult) (r0 : Response) :
    (finish env result r0).returned =
      if (!result.error.isSome && env.etagEnabled
          && env.fresh (env.generateETag result.html)) = true
      then RetVal.undef else RetVal.str result.html := by
  unfold finish
  by_cases hc : (!result.error.isSome && env.etagEnabled
      && env.fresh (env.generateETag result.html)) = true
  · simp only [if_pos hc]
  · simp only [if_neg hc]

theorem finish_statusCode (env : Env) (result : RenderResult) (r0 : Response) :
    (finish env result r0).res.statusCode =
      if (!result.error.isSome && env.etagEnabled
          && env.fresh (env.generateETag result.html)) = true
      then 304 else r0.statusCode := by
  unfold finish
  by_cases hc : (!result.error.isSome && env.etagEnabled
      && env.fresh (env.generateETag result.html)) = true
  · simp only [if_pos hc]
  · simp only [if_neg hc]
    cases hcsp : env.csp <;>
      simp [hcsp, apply_ite Response.statusCode]

theorem finish_ended (env : Env) (result : RenderResult) (r0 : Response) :
    (finish env result r0).res.ended = true := by
  unfold finish
  by_cases hc : (!result.error.isSome && env.etagEnabled
      && env.fresh (env.generateETag result.html)) = true
  · rw [if_pos hc]
  · rw [if_neg hc]

theorem finish_nextCalled (env : Env) (result : RenderResult) (r0 : Response) :
    (finish env result r0).nextCalled = false := by
  unfold finish
  by_cases hc : (!result.error.isSome && env.etagEnabled
      && env.fresh (env.generateETag result.html)) = true
  · rw [if_pos hc]
  · rw [if_neg hc]

theorem finish_bodyWrites (env : Env) (result : RenderResult) (r0 : Response) :
    (finish env result r0).res.bodyWrites =
      if (!result.error.isSome && env.etagEnabled
          && env.fresh (env.generateETag result.html)) = true
      then r0.bodyWrites ++ [""] else r0.bodyWrites ++ [result.html] := by
  unfold finish
  by_cases hc : (!result.error.isSome && env.etagEnabled
      && env.fresh (env.generateETag result.html)) = true
  · simp only [if_pos hc]
  · simp only [if_neg hc]
    cases hcsp : env.csp <;>
      simp [hcsp, apply_ite Response.bodyWrites]

/-- On the fresh-ETag short-circuit the whole outcome is fixed. -/
theorem finish_fresh (env : Env) (result : RenderResult) (r0 : Response)
    (hc : (!result.error.isSome && env.etagEnabled
        && env.fresh (env.generateETag result.html)) = true) :
    finish env result r0 =
      { res :=
          { r0 with
              statusCode := 304, bodyWrites := r0.bodyWrites ++ [""], ended := true },
        hooks := ["render:route", "render:routeDone"],
        returned := RetVal.undef, nextCalled := false } := by
  unfold finish
  rw [if_pos hc]

/-- On the error path (no ETag, no push) the headers are exactly the
optional CSP header followed by the three standard ones. -/
theorem finish_error_headers (env : Env) (result : RenderResult) (r0 : Response)
    (he : result.error.isSome = true) (h0 : r0.headers = []) :
    (finish env result r0).res.headers =
      (match env.csp with
       | some c =>
         [((if c.reportOnly then "Content-Security-Policy-Report-Only"
            else "Content-Security-Policy"),
           (getCspString result.cspScriptSrcHashSet c.allowedSources c.policies env.isDev).1)]
       | none => []) ++
      [("Content-Type", "text/html; charset=utf-8"), ("Accept-Ranges", "none"),
       ("Content-Length", toString result.html.utf8ByteSize)] := by
  unfold finish
  rw [if_neg (by simp [he])]
  cases hcsp : env.csp with
  | none => simp [hcsp, he, h0, setHeader, hdrSet]
  | some c =>
    cases hro : c.reportOnly <;>
      simp [hcsp, hro, he, h0, setHeader, hdrSet]

/-! Reductions of the middleware to its branches. -/

theorem nuxtMiddleware_thrown (env : Env) (h1 : env.renderResult = none) :
    nuxtMiddleware env = catchOutcome env [] initRes := by
  unfold nuxtMiddleware
  rw [h1]

theorem nuxtMiddleware_redirected (env : Env) (result : RenderResult)
    (h1 : env.renderResult = some result) (h2 : result.redirected = true) :
    nuxtMiddleware env =
      { res := initRes, hooks := ["render:route", "render:routeDone"],
        returned := RetVal.str result.html, nextCalled := false } := by
  unfold nuxtMiddleware
  rw [h1]
  simp [h2]

theorem nuxtMiddleware_ok (env : Env) (result : RenderResult)
    (h1 : env.renderResult = some result) (h2 : result.redirected = false)
    (h3 : result.error = none) :
    nuxtMiddleware env = finish env result initRes := by
  unfold nuxtMiddleware
  rw [h1]
  simp [h2, h3]

theorem nuxtMiddleware_error (env : Env) (result : RenderResult) (e ce : ErrObj)
    (h1 : env.renderResult = some result) (h2 : result.redirected = false)
    (h3 : result.error = some e) (h4 : env.ctxNuxtError = some ce) :
    nuxtMiddleware env =
      finish env result { initRes with statusCode := jsOr500 ce.statusCode } := by
  unfold nuxtMiddleware
  rw [h1]
  simp [h2, h3, h4]

theorem nuxtMiddleware_typeError (env : Env) (result : RenderResult) (e : ErrObj)
    (h1 : env.renderResult = some result) (h2 : result.redirected = false)
    (h3 : result.error = some e) (h4 : env.ctxNuxtError = none) :
    nuxtMiddleware env = catchOutcome env ["render:route"] initRes := by
  unfold nuxtMiddleware
  rw [h1]
  simp [h2, h3, h4]

/-! Set and association-list lemmas. -/

theorem mem_setAdd_self (s : List String) (x : String) : x ∈ setAdd s x := by
  unfold setAdd
  split
  · assumption
  · simp

theorem mem_setAdd_of_mem {y : String} (s : List String) (x : String)
    (h : y ∈ s) : y ∈ setAdd s x := by
  unfold setAdd
  split
  · exact h
  · exact List.mem_append_left _ h

theorem mem_foldl_setAdd_of_mem {y : String} (l : List String)
    (acc : List String) (h : y ∈ acc) : y ∈ l.foldl setAdd acc := by
  induction l generalizing acc with
  | nil => exact h
  | cons a t ih => exact ih _ (mem_setAdd_of_mem _ _ h)

theorem mem_foldl_setAdd {x : String} (l acc : List String) (h : x ∈ l) :
    x ∈ l.foldl setAdd acc := by
  induction l generalizing acc with
  | nil => cases h
  | cons a t ih =>
    rcases List.mem_cons.mp h with rfl | h'
    · exact mem_foldl_setAdd_of_mem t _ (mem_setAdd_self acc x)
    · exact ih _ h'

theorem filterMap_if_eq_map_filter {α β : Type} (p : α → Bool) (g : α → β)
    (l : List α) :
    (l.filterMap fun x => if p x then some (g x) else none) = (l.filter p).map g := by
  induction l with
  | nil => rfl
  | cons a t ih =>
    by_cases h : p a <;> simp [List.filterMap_cons, List.filter_cons, h, ih]

theorem objGet_objSet_ne (o : List (String × List String)) (k q : String)
    (v : List String) (h : q ≠ k) : objGet (objSet o k v) q = objGet o q := by
  induction o with
  | nil => simp [objSet, objGet, if_neg (Ne.symm h)]
  | cons p t ih =>
    obtain ⟨a, b⟩ := p
    by_cases ha : a = k
    · subst ha
      simp [objSet, objGet, if_neg (Ne.symm h)]
    · simp only [objSet, if_neg ha]
      by_cases haq : a = q
      · simp [objGet, haq]
      · simp [objGet, haq, ih]

/-! The claims. -/

/-- C1 (amended): when `result.error` is present and `redirected` is
false, the middleware suppresses the ETag and HTTP/2-push logic — it
sets neither an `ETag` nor a `Link` header — but the CSP block is not
suppressed: when `csp` is configured the CSP header is still set (and
when it is not, no CSP header appears); the HTML body is still written
normally. -/
theorem c1_error_headers (env : Env) (result : RenderResult) (e ce : ErrObj)
    (h1 : env.renderResult = some result) (h2 : result.redirected = false)
    (h3 : result.error = some e) (h4 : env.ctxNuxtError = some ce) :
    headerLookup (nuxtMiddleware env).res.headers "ETag" = none
    ∧ headerLookup (nuxtMiddleware env).res.headers "Link" = none
    ∧ (env.csp = none →
        headerLookup (nuxtMiddleware env).res.headers "Content-Security-Policy" = none
        ∧ headerLookup (nuxtMiddleware env).res.headers
            "Content-Security-Policy-Report-Only" = none)
    ∧ (∀ c, env.csp = some c →
        headerLookup (nuxtMiddleware env).res.headers
            (if c.reportOnly then "Content-Security-Policy-Report-Only"
             else "Content-Security-Policy")
          = some (getCspString result.cspScriptSrcHashSet c.allowedSources
              c.policies env.isDev).1)
    ∧ (nuxtMiddleware env).res.bodyWrites = [result.html]
    ∧ (nuxtMiddleware env).res.ended = true := by
  have he : result.error.isSome = true := by simp [h3]
  have hm := nuxtMiddleware_error env result e ce h1 h2 h3 h4
  have hh := finish_error_headers env result
    { initRes with statusCode := jsOr500 ce.statusCode } he rfl
  refine ⟨?_, ?_, ?_, ?_, ?_, ?_⟩
  · rw [hm, hh]
    cases hcsp : env.csp with
    | none => simp [headerLookup]
    | some c => cases hro : c.reportOnly <;> simp [hro, headerLookup]
  · rw [hm, hh]
    cases hcsp : env.csp with
    | none => simp [headerLookup]
    | some c => cases hro : c.reportOnly <;> simp [hro, headerLookup]
  · intro hcsp
    rw [hm, hh, hcsp]
    simp [headerLookup]
  · intro c hcsp
    rw [hm, hh, hcsp]
    cases hro : c.reportOnly <;> simp [hro, headerLookup]
  · rw [hm, finish_bodyWrites]
    simp [he, initRes]
  · rw [hm, finish_ended]

/-- C1 counterexample: on an error render (`result.error` present,
`redirected` false) with `csp` configured, the middleware does set the
`Content-Security-Policy` header, contradicting "sets none of the ETag,
Link, Content-Security-Policy, or Content-Security-Policy-Report-Only
headers". -/
theorem c1_counterexample :
    envC1.renderResult = some resC1
    ∧ resC1.error.isSome = true
    ∧ resC1.redirected = false
    ∧ headerLookup (nuxtMiddleware envC1).res.headers "Content-Security-Policy"
        = some "script-src 'self' " := by
  refine ⟨rfl, rfl, rfl, ?_⟩
  decide

/-- C1 witness: the amended theorem applied to the concrete error
environment `envC1`. -/
theorem c1_witness :
    headerLookup (nuxtMiddleware envC1).res.headers "ETag" = none
    ∧ headerLookup (nuxtMiddleware envC1).res.headers "Link" = none
    ∧ (nuxtMiddleware envC1).res.bodyWrites = ["<h1>error</h1>"]
    ∧ (nuxtMiddleware envC1).res.ended = true := by
  have h := c1_error_headers envC1 resC1 ⟨some 404⟩ ⟨some 404⟩ rfl rfl rfl rfl
  exact ⟨h.1, h.2.1, h.2.2.2.2.1, h.2.2.2.2.2⟩

/-- C2 (amended): on the error branch the response status is set to the
context error's status code, `context.nuxt.error.statusCode || 500`
(not `result.error.statusCode` — the two coincide only when the context
error and the result error agree); in every run the status is 200, 304,
or `context.nuxt.error.statusCode` defaulting to 500. -/
theorem c2_statusCode (env : Env) :
    (∀ (result : RenderResult) (e ce : ErrObj),
      env.renderResult = some result → result.redirected = false →
      result.error = some e → env.ctxNuxtError = some ce →
      (nuxtMiddleware env).res.statusCode = jsOr500 ce.statusCode)
    ∧ ((nuxtMiddleware env).res.statusCode = 200
       ∨ (nuxtMiddleware env).res.statusCode = 304
       ∨ ∃ ce, env.ctxNuxtError = some ce
           ∧ (nuxtMiddleware env).res.statusCode = jsOr500 ce.statusCode) := by
  constructor
  · intro result e ce h1 h2 h3 h4
    rw [nuxtMiddleware_error env result e ce h1 h2 h3 h4, finish_statusCode]
    simp [h3]
  · cases h1 : env.renderResult with
    | none =>
      rw [nuxtMiddleware_thrown env h1, catchOutcome_res]
      left; rfl
    | some result =>
      cases h2 : result.redirected with
      | true =>
        rw [nuxtMiddleware_redirected env result h1 h2]
        left; rfl
      | false =>
        cases h3 : result.error with
        | none =>
          rw [nuxtMiddleware_ok env result h1 h2 h3, finish_statusCode]
          by_cases hc : (!result.error.isSome && env.etagEnabled
              && env.fresh (env.generateETag result.html)) = true
          · rw [if_pos hc]; right; left; rfl
          · rw [if_neg hc]; left; rfl
        | some e =>
          cases h4 : env.ctxNuxtError with
          | none =>
            rw [nuxtMiddleware_typeError env result e h1 h2 h3 h4, catchOutcome_res]
            left; rfl
          | some ce =>
            right; right
            refine ⟨ce, rfl, ?_⟩
            rw [nuxtMiddleware_error env result e ce h1 h2 h3 h4, finish_statusCode]
            simp [h3]

/-- C2 counterexample: `result.error.statusCode` is 404 but the context
error's status code is 403; the middleware sets the response status to
403, not to the render error's 404 as the claim states. -/
theorem c2_counterexample :
    envC2x.renderResult = some resC2x
    ∧ resC2x.error = some ⟨some 404⟩
    ∧ resC2x.redirected = false
    ∧ (nuxtMiddleware envC2x).res.statusCode = 403
    ∧ (nuxtMiddleware envC2x).res.statusCode ≠ 404 := by
  refine ⟨rfl, rfl, rfl, ?_, ?_⟩ <;> decide

/-- C2 witness: with result error and context error agreeing on 503, the
response status is 503. -/
theorem c2_witness :
    (nuxtMiddleware envC2w).res.statusCode = jsOr500 (ErrObj.mk (some 503)).statusCode
    ∧ (nuxtMiddleware envC2w).res.statusCode = 503 := by
  have h := (c2_statusCode envC2w).1 resC2w ⟨some 503⟩ ⟨some 503⟩ rfl rfl rfl rfl
  exact ⟨h, h.trans (by decide)⟩

/-- C3: with `policies = {"default-src": ["'none'"]}` (no allowedSources
array) and hash set `{"'sha256-abc'"}`, the CSP header is the directives
joined by `"; "`, with a `default-src 'none'` directive and a
`script-src` directive containing the hash and `'self'`. -/
theorem c3_policies_header :
    (getCspString ["'sha256-abc'"] none (some [("default-src", ["'none'"])]) false).1
      = "default-src 'none'; script-src 'sha256-abc' 'self'"
    ∧ "script-src 'sha256-abc' 'self'".toList <:+:
        ((getCspString ["'sha256-abc'"] none
          (some [("default-src", ["'none'"])]) false).1).toList
    ∧ "default-src 'none'".toList <:+:
        ((getCspString ["'sha256-abc'"] none
          (some [("default-src", ["'none'"])]) false).1).toList
    ∧ "; ".toList <:+:
        ((getCspString ["'sha256-abc'"] none
          (some [("default-src", ["'none'"])]) false).1).toList :=
  ⟨rfl, by decide, by decide, by decide⟩

/-- C4: with no error, etag enabled and the request fresh against the
computed tag, the middleware answers 304 with an empty body, sets no
headers at all (in particular no Link or CSP header), dispatches the
completion hook and stops returning nothing. -/
theorem c4_fresh_304 (env : Env) (result : RenderResult)
    (h1 : env.renderResult = some result) (h2 : result.redirected = false)
    (h3 : result.error = none) (h4 : env.etagEnabled = true)
    (h5 : env.fresh (env.generateETag result.html) = true) :
    (nuxtMiddleware env).res.statusCode = 304
    ∧ (nuxtMiddleware env).res.headers = []
    ∧ (nuxtMiddleware env).res.bodyWrites = [""]
    ∧ (nuxtMiddleware env).hooks = ["render:route", "render:routeDone"]
    ∧ (nuxtMiddleware env).returned = RetVal.undef
    ∧ (nuxtMiddleware env).res.ended = true := by
  have hc : (!result.error.isSome && env.etagEnabled
      && env.fresh (env.generateETag result.html)) = true := by
    simp [h3, h4, h5]
  rw [nuxtMiddleware_ok env result h1 h2 h3, finish_fresh env result initRes hc]
  exact ⟨rfl, rfl, rfl, rfl, rfl, rfl⟩

/-- C4 witness: the 304 short-circuit on the concrete fresh environment
`envC4` (push and csp both configured, still no headers). -/
theorem c4_witness :
    (nuxtMiddleware envC4).res.statusCode = 304
    ∧ (nuxtMiddleware envC4).res.headers = []
    ∧ (nuxtMiddleware envC4).res.bodyWrites = [""]
    ∧ (nuxtMiddleware envC4).hooks = ["render:route", "render:routeDone"]
    ∧ (nuxtMiddleware envC4).returned = RetVal.undef := by
  have h := c4_fresh_304 envC4 resC4 rfl rfl rfl rfl rfl
  exact ⟨h.1, h.2.1, h.2.2.1, h.2.2.2.1, h.2.2.2.2.1⟩

/-- C5: when `result.redirected` is true the middleware returns
`result.html` untouched: status stays 200, no header is set, no body is
written, and exactly one completion notification is dispatched. -/
theorem c5_redirected (env : Env) (result : RenderResult)
    (h1 : env.renderResult = some result) (h2 : result.redirected = true) :
    (nuxtMiddleware env).returned = RetVal.str result.html
    ∧ (nuxtMiddleware env).res.headers = []
    ∧ (nuxtMiddleware env).res.statusCode = 200
    ∧ (nuxtMiddleware env).res.bodyWrites = []
    ∧ (nuxtMiddleware env).hooks.count "render:routeDone" = 1
    ∧ (nuxtMiddleware env).nextCalled = false := by
  rw [nuxtMiddleware_redirected env result h1 h2]
  exact ⟨rfl, rfl, rfl, rfl, rfl, rfl⟩

/-- C5 witness: the redirect path on the concrete environment `envC5`
(error object present, etag, push and csp all configured — none of them
run). -/
theorem c5_witness :
    (nuxtMiddleware envC5).returned = RetVal.str ""
    ∧ (nuxtMiddleware envC5).res.headers = []
    ∧ (nuxtMiddleware envC5).res.statusCode = 200
    ∧ (nuxtMiddleware envC5).hooks.count "render:routeDone" = 1 := by
  have h := c5_redirected envC5 resC5 rfl rfl
  exact ⟨h.1, h.2.1, h.2.2.1, h.2.2.2.2.1⟩

/-- C6: with `allowedSources = ["https://cdn.example.com"]` and
`dev = false`, the CSP header is exactly
`script-src 'self' <joined hashes> https://cdn.example.com`
(for every hash set and policies value), and on the representative hash
set `{"'sha256-abc'"}` it does not contain `'unsafe-eval'`. -/
theorem c6_allowed_sources (hs : List String)
    (ps : Option (List (String × List String))) :
    (getCspString hs (some ["https://cdn.example.com"]) ps false).1
      = "script-src 'self' " ++ String.intercalate " " hs ++ " https://cdn.example.com"
    ∧ ¬ ("'unsafe-eval'".toList <:+:
        ((getCspString ["'sha256-abc'"] (some ["https://cdn.example.com"])
            none false).1).toList) := by
  constructor
  · have h : (" " ++ String.intercalate " " ["https://cdn.example.com"] : String)
        = " https://cdn.example.com" := rfl
    simp [getCspString, String.append_assoc, h]
  · decide

/-- C6 witness: the header on the representative hash set, fully
evaluated. -/
theorem c6_witness :
    (getCspString ["'sha256-abc'"] (some ["https://cdn.example.com"]) none false).1
      = "script-src 'self' 'sha256-abc' https://cdn.example.com" := by
  have h := (c6_allowed_sources ["'sha256-abc'"] none).1
  rw [h]
  rfl

/-- C7: under the default push policy (`shouldPush` unset, no
`pushAssets` override) the produced links are exactly the `script` and
`style` entries, each rendered by `pushLink`; concretely, for a preload
list with a modern script, a style and a font, the `Link` header holds
the script and style links (with `rel=modulepreload` for the modern
entry and the configured crossorigin) joined by `", "`, and no font
entry. -/
theorem c7_default_push (pp : String) (co : Option String)
    (files : List PreloadFile) :
    defaultPushAssets files none pp co
      = (files.filter fun pf => pf.asType == "script" || pf.asType == "style").map
          (pushLink pp co)
    ∧ headerLookup (nuxtMiddleware envC7).res.headers "Link"
      = some ("</_nuxt/app.js>; rel=modulepreload; crossorigin=anonymous; as=script"
          ++ ", </_nuxt/app.css>; rel=preload; crossorigin=anonymous; as=style") := by
  constructor
  · unfold defaultPushAssets
    rw [← filterMap_if_eq_map_filter
      (fun pf => pf.asType == "script" || pf.asType == "style") (pushLink pp co) files]
    refine congrArg (fun f => List.filterMap f files) (funext fun pf => ?_)
    by_cases h1 : pf.asType = "script"
    · simp [h1]
    · by_cases h2 : pf.asType = "style" <;> simp [h1, h2]
  · decide

/-- C7 witness: the default selection evaluated on the concrete preload
list (modern script, style, font). -/
theorem c7_witness :
    defaultPushAssets resC7.preloadFiles none "/_nuxt/" (some "anonymous")
      = ["</_nuxt/app.js>; rel=modulepreload; crossorigin=anonymous; as=script",
         "</_nuxt/app.css>; rel=preload; crossorigin=anonymous; as=style"] := by
  have h := (c7_default_push "/_nuxt/" (some "anonymous") resC7.preloadFiles).1
  rw [h]
  rfl

/-- C8: when the renderer throws (and likewise when the status-code
adjustment itself throws on a missing context error), a falsy
`context.redirected` forwards the error to `next`, while a truthy one
logs it and returns it as a value without calling `next`. -/
theorem c8_catch (env : Env) :
    (env.renderResult = none →
      ((env.ctxRedirected = false →
          (nuxtMiddleware env).nextCalled = true
          ∧ (nuxtMiddleware env).returned = RetVal.undef)
       ∧ (env.ctxRedirected = true →
          (nuxtMiddleware env).nextCalled = false
          ∧ (nuxtMiddleware env).returned = RetVal.errVal)))
    ∧ (∀ (result : RenderResult) (e : ErrObj),
        env.renderResult = some result → result.redirected = false →
        result.error = some e → env.ctxNuxtError = none →
        ((env.ctxRedirected = false →
            (nuxtMiddleware env).nextCalled = true
            ∧ (nuxtMiddleware env).returned = RetVal.undef)
         ∧ (env.ctxRedirected = true →
            (nuxtMiddleware env).nextCalled = false
            ∧ (nuxtMiddleware env).returned = RetVal.errVal))) := by
  constructor
  · intro h1
    rw [nuxtMiddleware_thrown env h1]
    constructor <;> intro hr <;> simp [catchOutcome, hr]
  · intro result e h1 h2 h3 h4
    rw [nuxtMiddleware_typeError env result e h1 h2 h3 h4]
    constructor <;> intro hr <;> simp [catchOutcome, hr]

/-- C8 witness: a throwing renderer with `context.redirected` falsy
forwards to `next` and returns undefined. -/
theorem c8_witness :
    (nuxtMiddleware envC8).nextCalled = true
    ∧ (nuxtMiddleware envC8).returned = RetVal.undef :=
  ((c8_catch envC8).1 rfl).1 rfl

/-- C9: building the CSP header from a plain `policies` object mutates
the hash set taken from the render result: afterwards it contains
`'self'`, every original hash, and — when the user defined a
`script-src` array — every entry of that array; every directive other
than `script-src` is preserved unchanged, and `getCspString` propagates
exactly the mutated set. -/
theorem c9_policy_mutation (ps : List (String × List String)) (hs : List String) :
    "'self'" ∈ (transformPolicyObject ps hs).2
    ∧ (∀ x ∈ hs, x ∈ (transformPolicyObject ps hs).2)
    ∧ (∀ l, objGet ps "script-src" = some l →
        ∀ x ∈ l, x ∈ (transformPolicyObject ps hs).2)
    ∧ (∀ q, q ≠ "script-src" →
        objGet (transformPolicyObject ps hs).1 q = objGet ps q)
    ∧ (∀ d, (getCspString hs none (some ps) d).2 = (transformPolicyObject ps hs).2) := by
  refine ⟨?_, ?_, ?_, ?_, fun d => rfl⟩
  · cases hu : objGet ps "script-src" with
    | none => simpa [transformPolicyObject, hu] using mem_setAdd_self hs "'self'"
    | some l =>
      simpa [transformPolicyObject, hu] using
        mem_foldl_setAdd_of_mem l (setAdd hs "'self'") (mem_setAdd_self hs "'self'")
  · intro x hx
    cases hu : objGet ps "script-src" with
    | none => simpa [transformPolicyObject, hu] using mem_setAdd_of_mem hs "'self'" hx
    | some l =>
      simpa [transformPolicyObject, hu] using
        mem_foldl_setAdd_of_mem l (setAdd hs "'self'") (mem_setAdd_of_mem hs "'self'" hx)
  · intro l hl x hx
    simpa [transformPolicyObject, hl] using
      mem_foldl_setAdd l (setAdd hs "'self'") hx
  · intro q hq
    exact objGet_objSet_ne ps "script-src" q _ hq

/-- C9 witness: the mutation on a concrete policy object with a
user-defined `script-src`. -/
theorem c9_witness :
    "'self'" ∈ (transformPolicyObject ps9 hs9).2
    ∧ "'sha256-abc'" ∈ (transformPolicyObject ps9 hs9).2
    ∧ "https://x" ∈ (transformPolicyObject ps9 hs9).2
    ∧ objGet (transformPolicyObject ps9 hs9).1 "default-src" = objGet ps9 "default-src"
    ∧ (getCspString hs9 none (some ps9) false).2 = (transformPolicyObject ps9 hs9).2 := by
  have h := c9_policy_mutation ps9 hs9
  exact ⟨h.1, h.2.1 _ (by decide), h.2.2.1 ["https://x"] rfl _ (by decide),
    h.2.2.2.1 "default-src" (by decide), h.2.2.2.2 false⟩

/-- C10: on a non-throwing run (renderer returned, and on the error
branch the context error is present so no TypeError is raised), the
middleware returns `undefined` exactly on the fresh-ETag 304
short-circuit and the rendered HTML string on every other path
(redirect and normal completion). -/
theorem c10_return_value (env : Env) (result : RenderResult)
    (h1 : env.renderResult = some result)
    (hwf : result.error.isSome = true → env.ctxNuxtError.isSome = true) :
    (nuxtMiddleware env).returned =
      if (!result.redirected && !result.error.isSome && env.etagEnabled
          && env.fresh (env.generateETag result.html)) = true
      then RetVal.undef else RetVal.str result.html := by
  cases h2 : result.redirected with
  | true =>
    rw [nuxtMiddleware_redirected env result h1 h2]
    simp [h2]
  | false =>
    cases h3 : result.error with
    | none =>
      rw [nuxtMiddleware_ok env result h1 h2 h3, finish_returned]
      simp [h2, h3]
    | some e =>
      have hce : env.ctxNuxtError.isSome = true := hwf (by simp [h3])
      obtain ⟨ce, h4⟩ := Option.isSome_iff_exists.mp hce
      rw [nuxtMiddleware_error env result e ce h1 h2 h3 h4, finish_returned]
      simp [h2, h3]

/-- C10 witness: the fresh-ETag short-circuit returns `undefined` on the
concrete environment `envC10`. -/
theorem c10_witness : (nuxtMiddleware envC10).returned = RetVal.undef := by
  have h := c10_return_value envC10 resC10 rfl (by decide)
  rw [h]
  decide

end NuxtMw
